import Mathlib

/-!
# Verification of the California crime dashboard aggregation core

Shallow embedding of the aggregation logic of `crime_cali.py` (the `update`
callback and the module-level filtering), together with proofs of the
spec's testable properties.

The pandas dataframe `dff` is modelled as a `List CrimeRecord`; each
pandas operation used by the source is modelled by a Lean function with the
same observable behaviour:

* `Series.value_counts()` (default `dropna=True`, `sort=True`,
  `ascending=False`): counts of the non-null values, ordered by descending
  count; entries with equal counts keep the order in which their value is
  first encountered in the series.  Modelled by `valueCounts` as a total
  merge sort on the key (count descending, first-occurrence index
  ascending), which yields the same sequence.
* `groupby(k).size()` (default `sort=True`, `dropna=true`): one row per
  distinct non-null key, ordered ascending by key, with group sizes.
  Modelled by `groupbySize`, parametrised by the key order.
* `DataFrame.sort_values(col)`: stable sort by the given column.
* `.dt.hour`, `.dt.strftime("%b")`: projections out of the parsed
  timestamp; since `date_time` is a parsed timestamp column, the month is
  always in 1..12 and the hour in 0..23, modelled by `Fin` types.
-/

/-- The parts of a parsed `date_time` timestamp that the dashboard reads:
`dt.strftime("%b")` only looks at the month and `dt.hour` at the hour.
Month `0` is January. -/
structure Timestamp where
  month : Fin 12
  hour : Fin 24
deriving DecidableEq, Repr

/-- One row of the crime dataset.  `date_time` is required (parsed by
`read_csv(..., parse_dates=["date_time"])`); the categorical and
geographic columns may hold nulls (`NaN`), modelled by `Option`.
Latitude/longitude are only ever passed through, never computed with, so
their numeric type is irrelevant; we model them as integers. -/
structure CrimeRecord where
  city : String
  case_closed : Option String
  race_ethnicity : Option String
  gender : Option String
  date_time : Timestamp
  weapon : Option String
  crime_type : Option String
  latitude : Option Int
  longitude : Option Int
deriving DecidableEq, Repr

/-- `dff = df.copy() if city == "All California" else df[df.city == city].copy()`
(line 84).  Note: a `city` value that occurs nowhere in `df` silently
yields the empty subset; there is no validation against the city list. -/
def filterCity (df : List CrimeRecord) (city : String) : List CrimeRecord :=
  if city = "All California" then df else df.filter (fun r => r.city = city)

/-- The order in which `value_counts()` emits its entries, as a relation
on (label, count) pairs: by descending count, with ties resolved by the
position of the label's first occurrence in the (null-stripped) series
`vals`. -/
abbrev vcRel (vals : List String) (a b : String × Nat) : Prop :=
  b.2 < a.2 ∨ (a.2 = b.2 ∧ vals.indexOf a.1 ≤ vals.indexOf b.1)

/-- `pandas.Series.value_counts()` on a column with nulls: drop the nulls,
then one entry per distinct value with its multiplicity, sorted by
descending count; values with equal counts stay in first-encountered
order.  The sort is expressed as a total sort under `vcRel`. -/
def valueCounts (xs : List (Option String)) : List (String × Nat) :=
  let vals := xs.filterMap id
  (vals.dedup.map (fun v => (v, vals.count v))).insertionSort (vcRel vals)

/-- `groupby(key).size()` over an already non-null key column: one entry
per distinct key with the group size, ordered ascending by `le` on the
keys (pandas groups sort by key by default). -/
def groupbySize {α : Type} [DecidableEq α] (le : α → α → Bool) (xs : List α) : List (α × Nat) :=
  (xs.dedup.map (fun v => (v, xs.count v))).insertionSort (fun a b => le a.1 b.1 = true)

/-- Code-point lexicographic order on character lists: the order in
which pandas sorts string group keys (python compares strings by code
point).  Written as structural recursion so that it evaluates. -/
def strLtb : List Char → List Char → Bool
  | [], [] => false
  | [], _ :: _ => true
  | _ :: _, [] => false
  | a :: as, b :: bs => if a < b then true else if b < a then false else strLtb as bs

/-- `a ≤ b` on strings, by code point. -/
def strLeb (a b : String) : Bool := !(strLtb b.data a.data)

/-- The fixed calendar sequence `month_order` (lines 109-110). -/
def month_order : List String :=
  ["Jan", "Feb", "Mar", "Apr", "May", "Jun", "Jul", "Aug", "Sep", "Oct", "Nov", "Dec"]

/-- `dt.strftime("%b")`: the three-letter abbreviation of the month. -/
def monthAbbrev (m : Fin 12) : String := month_order.get (m.cast (by decide))

/-- The position of a month label in the fixed calendar sequence; the
categorical code that `pd.Categorical(..., categories=month_order,
ordered=True)` assigns, which `sort_values("month")` sorts by. -/
def monthIndex (s : String) : Nat := month_order.indexOf s

/-- One point of the `px.scatter_map` figure (lines 116-126): the
latitude/longitude position, the `color="city"` series and the
`hover_data` columns, taken verbatim from the record. -/
structure GeoPoint where
  latitude : Option Int
  longitude : Option Int
  city : String
  crime_type : Option String
  weapon : Option String
  gender : Option String
  case_closed : Option String
deriving DecidableEq, Repr

/-- The projection of one record onto its map point. -/
def toGeoPoint (r : CrimeRecord) : GeoPoint :=
  { latitude := r.latitude, longitude := r.longitude, city := r.city,
    crime_type := r.crime_type, weapon := r.weapon, gender := r.gender,
    case_closed := r.case_closed }

/-- `Series.idxmax()`: the first index at which the series attains its
maximum value.  (Applied by the source to a `value_counts` result, whose
index holds the labels.) -/
def idxmax : List (String × Nat) → String
  | [] => ""
  | p :: ps => (ps.foldl (fun best q => if best.2 < q.2 then q else best) p).1

/-- `Series.max()` on a series of counts. -/
def seriesMax (l : List (String × Nat)) : Nat := (l.map Prod.snd).foldl Nat.max 0

/-- Lines 130-135: the "Most Frequent Crime" card.  `none` models the
`html.Span("N/A")` sentinel; `some (label, count)` models
`html.Span(f"{vc.idxmax()} ({vc.max()} crimes)")`.  The guard
`not dff.empty and "crime_type" in dff.columns and dff["crime_type"].notna().any()`
is modelled with the column-presence test dropped, since the schema is
fixed and the column always present. -/
def freqCrime (dff : List CrimeRecord) : Option (String × Nat) :=
  if (!dff.isEmpty) && dff.any (fun r => r.crime_type.isSome) then
    let vc := valueCounts (dff.map (fun r => r.crime_type))
    some (idxmax vc, seriesMax vc)
  else
    none

/-- The data behind the nine outputs of the `update` callback
(lines 83-137), with the plotly/html rendering stripped away: for each
figure, the dataframe it is drawn from, in row order. -/
structure AggregationResult where
  statusCounts : List (String × Nat)
  raceCounts : List (String × Nat)
  genderCounts : List (String × Nat)
  hourlyCounts : List (Fin 24 × Nat)
  weaponUsage : List (String × Nat)
  monthlyCounts : List (String × Nat)
  mapPoints : List GeoPoint
  totalCount : Nat
  topCrimeType : Option (String × Nat)
deriving DecidableEq, Repr

/-- The `update` callback (lines 83-137).

* `case_df`, `race_df`, `gender_df`: `value_counts()` on the respective
  column (lines 86, 91, 96).
* `hourly_df`: `dff.assign(hour=dff.date_time.dt.hour).groupby("hour").size()`
  (line 101), grouped keys sorted ascending.
* `weapon_df`: `dff.groupby("weapon").size()` (line 104, keys sorted
  alphabetically, null weapons dropped) then `sort_values("usage_count")`
  (line 105, stable ascending by count).
* `month_df`: `groupby` on `dt.strftime("%b")` (line 108, keys sorted as
  strings) then reordered by the calendar categorical via
  `sort_values("month")` (lines 109-112).
* the map: one point per row of `dff` (lines 116-126).
* `total = len(dff)` (line 130) and the frequent-crime card (131-135). -/
def update (df : List CrimeRecord) (city : String) : AggregationResult :=
  let dff := filterCity df city
  let case_df := valueCounts (dff.map (fun r => r.case_closed))
  let race_df := valueCounts (dff.map (fun r => r.race_ethnicity))
  let gender_df := valueCounts (dff.map (fun r => r.gender))
  let hourly_df := groupbySize (fun a b => decide (a ≤ b)) (dff.map (fun r => r.date_time.hour))
  let weapon_df := groupbySize strLeb (dff.filterMap (fun r => r.weapon))
  let weapon_sorted := weapon_df.insertionSort (fun a b => a.2 ≤ b.2)
  let month_df := groupbySize strLeb (dff.map (fun r => monthAbbrev r.date_time.month))
  let month_sorted := month_df.insertionSort (fun a b => monthIndex a.1 ≤ monthIndex b.1)
  { statusCounts := case_df
    raceCounts := race_df
    genderCounts := gender_df
    hourlyCounts := hourly_df
    weaponUsage := weapon_sorted
    monthlyCounts := month_sorted
    mapPoints := dff.map toGeoPoint
    totalCount := dff.length
    topCrimeType := freqCrime dff }

/-- The behaviour the spec ascribes to the categorical counter, relative
to the null-stripped column `vals`: every entry is a non-null value with
its multiplicity, every non-null value has an entry, and entries are
ordered by strictly descending count with ties in first-encountered
order. -/
def CounterSpec (vals : List String) (out : List (String × Nat)) : Prop :=
  (∀ p ∈ out, p.1 ∈ vals ∧ p.2 = vals.count p.1) ∧
  (∀ v ∈ vals, ∃ p ∈ out, p.1 = v) ∧
  out.Pairwise (fun p q => q.2 < p.2 ∨ (p.2 = q.2 ∧ vals.indexOf p.1 < vals.indexOf q.1))

/-- The non-null `crime_type` values of a record sequence, in order:
`dff["crime_type"].dropna()` (the `astype(str)` of the source is the
identity on string values). -/
def crimeVals (dff : List CrimeRecord) : List String :=
  (dff.map (fun r => r.crime_type)).filterMap id

/-- A concrete sample dataset used to evaluate the embedding. -/
def sampleDf : List CrimeRecord :=
  [ { city := "Fresno", case_closed := some "Yes", race_ethnicity := some "White",
      gender := some "Male", date_time := ⟨0, 8⟩, weapon := some "Knife",
      crime_type := some "Theft", latitude := some 36, longitude := some (-119) },
    { city := "Fresno", case_closed := some "No", race_ethnicity := none,
      gender := some "Female", date_time := ⟨2, 23⟩, weapon := none,
      crime_type := some "Theft", latitude := none, longitude := none },
    { city := "Sacramento", case_closed := none, race_ethnicity := some "Asian",
      gender := none, date_time := ⟨0, 8⟩, weapon := some "Gun",
      crime_type := none, latitude := some 38, longitude := some (-121) },
    { city := "Fresno", case_closed := some "Yes", race_ethnicity := some "White",
      gender := some "Male", date_time := ⟨11, 8⟩, weapon := some "Gun",
      crime_type := some "Assault", latitude := some 36, longitude := some (-119) } ]

/-- Concrete evaluation check: counts sort descending, nulls dropped,
ties kept in first-encountered order. -/
theorem valueCounts_eval_check :
    valueCounts [some "a", some "b", none, some "b", some "c", some "a"] =
      [("a", 2), ("b", 2), ("c", 1)] := by decide

/-- Concrete evaluation check: the key order of the underlying table does
not leak into the output order. -/
theorem valueCounts_eval_check2 :
    valueCounts [some "b", some "a", some "a"] = [("a", 2), ("b", 1)] := by decide

theorem vcRel_total (vals : List String) (a b : String × Nat) :
    vcRel vals a b ∨ vcRel vals b a := by
  rcases Nat.lt_trichotomy a.2 b.2 with h | h | h
  · exact Or.inr (Or.inl h)
  · rcases Nat.le_total (vals.indexOf a.1) (vals.indexOf b.1) with h2 | h2
    · exact Or.inl (Or.inr ⟨h, h2⟩)
    · exact Or.inr (Or.inr ⟨h.symm, h2⟩)
  · exact Or.inl (Or.inl h)

theorem vcRel_trans (vals : List String) (a b c : String × Nat) :
    vcRel vals a b → vcRel vals b c → vcRel vals a c := by
  rintro (h1 | ⟨h1, h1i⟩) (h2 | ⟨h2, h2i⟩)
  · exact Or.inl (by omega)
  · exact Or.inl (by omega)
  · exact Or.inl (by omega)
  · exact Or.inr ⟨by omega, Nat.le_trans h1i h2i⟩

theorem valueCounts_perm (xs : List (Option String)) :
    (valueCounts xs).Perm
      ((xs.filterMap id).dedup.map (fun v => (v, (xs.filterMap id).count v))) :=
  List.perm_insertionSort _ _

theorem valueCounts_sorted (xs : List (Option String)) :
    (valueCounts xs).Pairwise (vcRel (xs.filterMap id)) := by
  haveI : IsTotal (String × Nat) (vcRel (xs.filterMap id)) := ⟨vcRel_total _⟩
  haveI : IsTrans (String × Nat) (vcRel (xs.filterMap id)) := ⟨vcRel_trans _⟩
  exact List.sorted_insertionSort _ _

theorem mem_valueCounts {xs : List (Option String)} {p : String × Nat} :
    p ∈ valueCounts xs ↔
      p.1 ∈ xs.filterMap id ∧ p.2 = (xs.filterMap id).count p.1 := by
  rw [(valueCounts_perm xs).mem_iff, List.mem_map]
  constructor
  · rintro ⟨v, hv, rfl⟩
    exact ⟨List.mem_dedup.1 hv, rfl⟩
  · rintro ⟨h1, h2⟩
    exact ⟨p.1, List.mem_dedup.2 h1, Prod.ext rfl h2.symm⟩

theorem valueCounts_keys_nodup (xs : List (Option String)) :
    ((valueCounts xs).map Prod.fst).Nodup := by
  have h := (valueCounts_perm xs).map Prod.fst
  rw [List.map_map] at h
  have h2 : (xs.filterMap id).dedup.map (Prod.fst ∘ fun v => (v, (xs.filterMap id).count v))
      = (xs.filterMap id).dedup := by
    simp [Function.comp_def]
  rw [h2] at h
  exact h.nodup_iff.2 (List.nodup_dedup _)

theorem valueCounts_sum (xs : List (Option String)) :
    ((valueCounts xs).map Prod.snd).sum = (xs.filterMap id).length := by
  have h := ((valueCounts_perm xs).map Prod.snd).sum_eq
  rw [h, List.map_map]
  have h2 : (xs.filterMap id).dedup.map (Prod.snd ∘ fun v => (v, (xs.filterMap id).count v))
      = (xs.filterMap id).dedup.map (fun v => (xs.filterMap id).count v) := by
    simp [Function.comp_def]
  rw [h2]
  exact List.sum_map_count_dedup_eq_length _

theorem length_filterMap_add_isNone {α : Type} (l : List (Option α)) :
    (l.filterMap id).length + (l.filter (fun o => o.isNone)).length = l.length := by
  induction l with
  | nil => rfl
  | cons x xs ih =>
    cases x <;> simp [List.filterMap_cons, List.filter_cons] <;> omega

theorem valueCounts_sum_field (dff : List CrimeRecord) (f : CrimeRecord → Option String) :
    ((valueCounts (dff.map f)).map Prod.snd).sum
      + (dff.filter (fun r => (f r).isNone)).length = dff.length := by
  rw [valueCounts_sum]
  have h : ((dff.map f).filterMap id).length = (dff.map f).length
      - ((dff.map f).filter (fun o => o.isNone)).length := by
    have := length_filterMap_add_isNone (dff.map f)
    omega
  have h2 : (dff.filter (fun r => (f r).isNone)).length
      = ((dff.map f).filter (fun o => o.isNone)).length := by
    rw [List.filter_map, List.length_map]
    rfl
  have h3 := length_filterMap_add_isNone (dff.map f)
  rw [h2]
  rw [List.length_map] at h3
  omega

/-- C1: for every dataset and jurisdiction argument, the total-crimes
figure `total = f"{len(dff):,}"` counts exactly the filtered subset
`dff`, and for the sentinel "All California" it counts the whole
dataset. -/
theorem totalCount_eq_filter_length (df : List CrimeRecord) (city : String) :
    (update df city).totalCount = (filterCity df city).length ∧
    (update df "All California").totalCount = df.length := by
  refine ⟨rfl, ?_⟩
  show (filterCity df "All California").length = df.length
  rw [filterCity, if_pos rfl]

/-- C2: the code does not reject an unknown jurisdiction.  Filtering by a
city that occurs nowhere in the dataset silently yields the empty subset,
and `update` returns a fully formed (empty) aggregation result rather
than failing: evaluated on a concrete dataset and the city
"Nonexistent". -/
theorem unknown_city_yields_empty_result :
    (update sampleDf "Nonexistent").totalCount = 0 ∧
    (update sampleDf "Nonexistent").statusCounts = [] ∧
    (update sampleDf "Nonexistent").mapPoints = [] ∧
    (update sampleDf "Nonexistent").topCrimeType = none ∧
    filterCity sampleDf "Nonexistent" = [] := by decide

/-- C3: for each of the three categorical breakdowns, the displayed
counts sum to the number of filtered records whose field is non-null, so
adding the number of null-field records gives `totalCount`. -/
theorem categorical_sums (df : List CrimeRecord) (city : String) :
    ((update df city).statusCounts.map Prod.snd).sum
        + ((filterCity df city).filter (fun r => r.case_closed.isNone)).length
      = (update df city).totalCount ∧
    ((update df city).raceCounts.map Prod.snd).sum
        + ((filterCity df city).filter (fun r => r.race_ethnicity.isNone)).length
      = (update df city).totalCount ∧
    ((update df city).genderCounts.map Prod.snd).sum
        + ((filterCity df city).filter (fun r => r.gender.isNone)).length
      = (update df city).totalCount :=
  ⟨valueCounts_sum_field (filterCity df city) (fun r => r.case_closed),
   valueCounts_sum_field (filterCity df city) (fun r => r.race_ethnicity),
   valueCounts_sum_field (filterCity df city) (fun r => r.gender)⟩

/-- C9: the map figure draws one point per filtered record, carrying the
record's coordinates, city, crime type, weapon, gender and case status
verbatim, with no null-coordinate filtering, so there are exactly
`totalCount` points. -/
theorem mapPoints_pass_through (df : List CrimeRecord) (city : String) :
    (update df city).mapPoints.length = (update df city).totalCount ∧
    (update df city).mapPoints = (filterCity df city).map (fun r =>
      { latitude := r.latitude, longitude := r.longitude, city := r.city,
        crime_type := r.crime_type, weapon := r.weapon, gender := r.gender,
        case_closed := r.case_closed }) := by
  refine ⟨?_, rfl⟩
  show ((filterCity df city).map toGeoPoint).length = (filterCity df city).length
  rw [List.length_map]

theorem length_filterMap_eq_filter_isSome {α β : Type} (f : α → Option β) (l : List α) :
    (l.filterMap f).length = (l.filter (fun x => (f x).isSome)).length := by
  induction l with
  | nil => rfl
  | cons x xs ih =>
    cases hf : f x <;> simp [List.filterMap_cons, List.filter_cons, hf, ih]

theorem groupbySize_perm {α : Type} [DecidableEq α] (le : α → α → Bool) (xs : List α) :
    (groupbySize le xs).Perm (xs.dedup.map (fun v => (v, xs.count v))) :=
  List.perm_insertionSort _ _

theorem mem_groupbySize {α : Type} [DecidableEq α] {le : α → α → Bool} {xs : List α}
    {p : α × Nat} :
    p ∈ groupbySize le xs ↔ p.1 ∈ xs ∧ p.2 = xs.count p.1 := by
  rw [(groupbySize_perm le xs).mem_iff, List.mem_map]
  constructor
  · rintro ⟨v, hv, rfl⟩
    exact ⟨List.mem_dedup.1 hv, rfl⟩
  · rintro ⟨h1, h2⟩
    exact ⟨p.1, List.mem_dedup.2 h1, Prod.ext rfl h2.symm⟩

theorem groupbySize_sum {α : Type} [DecidableEq α] (le : α → α → Bool) (xs : List α) :
    ((groupbySize le xs).map Prod.snd).sum = xs.length := by
  have h := ((groupbySize_perm le xs).map Prod.snd).sum_eq
  rw [h, List.map_map]
  have h2 : xs.dedup.map (Prod.snd ∘ fun v => (v, xs.count v))
      = xs.dedup.map (fun v => xs.count v) := by
    simp [Function.comp_def]
  rw [h2]
  exact List.sum_map_count_dedup_eq_length _

theorem groupbySize_keys_nodup {α : Type} [DecidableEq α] (le : α → α → Bool) (xs : List α) :
    ((groupbySize le xs).map Prod.fst).Nodup := by
  have h := (groupbySize_perm le xs).map Prod.fst
  rw [List.map_map] at h
  have h2 : xs.dedup.map (Prod.fst ∘ fun v => (v, xs.count v)) = xs.dedup := by
    simp [Function.comp_def]
  rw [h2] at h
  exact h.nodup_iff.2 (List.nodup_dedup _)

theorem groupbySize_sorted {α : Type} [DecidableEq α] (le : α → α → Bool)
    (htrans : ∀ a b c, le a b = true → le b c = true → le a c = true)
    (htotal : ∀ a b, le a b = true ∨ le b a = true) (xs : List α) :
    (groupbySize le xs).Pairwise (fun a b => le a.1 b.1 = true) := by
  haveI : IsTotal (α × Nat) (fun a b : α × Nat => le a.1 b.1 = true) :=
    ⟨fun a b => htotal a.1 b.1⟩
  haveI : IsTrans (α × Nat) (fun a b : α × Nat => le a.1 b.1 = true) :=
    ⟨fun a b c => htrans a.1 b.1 c.1⟩
  exact List.sorted_insertionSort _ _

/-- C6: the weapons figure is drawn from `weapon_df.sort_values("usage_count")`:
the (weapon, count) rows appear in non-decreasing count order. -/
theorem weaponUsage_sorted_asc (df : List CrimeRecord) (city : String) :
    (update df city).weaponUsage.Pairwise (fun p q => p.2 ≤ q.2) := by
  haveI : IsTotal (String × Nat) (fun a b : String × Nat => a.2 ≤ b.2) :=
    ⟨fun a b => Nat.le_total a.2 b.2⟩
  haveI : IsTrans (String × Nat) (fun a b : String × Nat => a.2 ≤ b.2) :=
    ⟨fun _ _ _ => Nat.le_trans⟩
  exact List.sorted_insertionSort _ _

/-- C10: `dff.groupby("weapon")` drops null weapons (pandas default
`dropna=True`), so every row of the weapons ranking is a non-null weapon
value and the counts sum to the number of records with a non-null
weapon. -/
theorem weaponUsage_excludes_null (df : List CrimeRecord) (city : String) :
    ((update df city).weaponUsage.map Prod.snd).sum
        = ((filterCity df city).filter (fun r => r.weapon.isSome)).length ∧
    ∀ p ∈ (update df city).weaponUsage,
      p.1 ∈ (filterCity df city).filterMap (fun r => r.weapon) := by
  have hperm : ((update df city).weaponUsage).Perm
      (groupbySize strLeb
        ((filterCity df city).filterMap (fun r => r.weapon))) :=
    List.perm_insertionSort _ _
  constructor
  · have h := (hperm.map Prod.snd).sum_eq
    rw [h, groupbySize_sum]
    exact length_filterMap_eq_filter_isSome _ _
  · intro p hp
    exact (mem_groupbySize.1 (hperm.mem_iff.1 hp)).1

/-- C7: the hourly figure is drawn from the `groupby("hour").size()`
table: its keys are exactly the hours occurring among the filtered
records, each with its positive occurrence count, in strictly increasing
hour order (absent hours yield no row at all). -/
theorem hourlyCounts_spec (df : List CrimeRecord) (city : String) :
    (∀ p ∈ (update df city).hourlyCounts,
        p.1 ∈ (filterCity df city).map (fun r => r.date_time.hour) ∧
        p.2 = ((filterCity df city).map (fun r => r.date_time.hour)).count p.1 ∧
        0 < p.2) ∧
    (∀ h ∈ (filterCity df city).map (fun r => r.date_time.hour),
        ∃ p ∈ (update df city).hourlyCounts, p.1 = h) ∧
    ((update df city).hourlyCounts.map Prod.fst).Pairwise (fun a b => a < b) := by
  have e : (update df city).hourlyCounts
      = groupbySize (fun a b : Fin 24 => decide (a ≤ b))
        ((filterCity df city).map (fun r => r.date_time.hour)) := rfl
  rw [e]
  refine ⟨?_, ?_, ?_⟩
  · intro p hp
    have h := mem_groupbySize.1 hp
    refine ⟨h.1, h.2, ?_⟩
    rw [h.2]
    exact List.count_pos_iff.2 h.1
  · intro h hh
    exact ⟨(h, ((filterCity df city).map (fun r => r.date_time.hour)).count h),
      mem_groupbySize.2 ⟨hh, rfl⟩, rfl⟩
  · have hs := groupbySize_sorted (fun a b : Fin 24 => decide (a ≤ b))
      (by intro a b c h1 h2; rw [decide_eq_true_eq] at *; omega)
      (by intro a b; rw [decide_eq_true_eq, decide_eq_true_eq]; omega)
      ((filterCity df city).map (fun r => r.date_time.hour))
    have hk : ((groupbySize (fun a b : Fin 24 => decide (a ≤ b))
        ((filterCity df city).map (fun r => r.date_time.hour))).map Prod.fst).Pairwise
        (fun a b : Fin 24 => a ≤ b) :=
      List.pairwise_map.2 (hs.imp (fun h => by rw [decide_eq_true_eq] at h; exact h))
    have hnd := groupbySize_keys_nodup (fun a b : Fin 24 => decide (a ≤ b))
      ((filterCity df city).map (fun r => r.date_time.hour))
    exact (hk.and hnd).imp (fun h => lt_of_le_of_ne h.1 h.2)

theorem monthAbbrev_mem (m : Fin 12) : monthAbbrev m ∈ month_order := by
  fin_cases m <;> decide

theorem month_order_nodup : month_order.Nodup := by decide

theorem month_order_sorted :
    month_order.Pairwise (fun a b => monthIndex a < monthIndex b) := by decide

/-- C5: the monthly figure is drawn from
`month_df.sort_values("month")` after the month column is made a
calendar-ordered categorical, so its key sequence is a subsequence of
the fixed list Jan..Dec, never reordered by count or alphabet. -/
theorem monthlyCounts_subseq (df : List CrimeRecord) (city : String) :
    ((update df city).monthlyCounts.map Prod.fst).Sublist month_order := by
  have hperm : ((update df city).monthlyCounts).Perm
      (groupbySize strLeb
        ((filterCity df city).map (fun r => monthAbbrev r.date_time.month))) :=
    List.perm_insertionSort _ _
  -- every key is a month label
  have hmem : ∀ k ∈ (update df city).monthlyCounts.map Prod.fst, k ∈ month_order := by
    intro k hk
    rw [List.mem_map] at hk
    obtain ⟨p, hp, rfl⟩ := hk
    have hp2 := (mem_groupbySize.1 (hperm.mem_iff.1 hp)).1
    rw [List.mem_map] at hp2
    obtain ⟨r, _, hr⟩ := hp2
    rw [← hr]
    exact monthAbbrev_mem _
  -- the keys are distinct
  have hnd : ((update df city).monthlyCounts.map Prod.fst).Nodup :=
    (hperm.map Prod.fst).nodup_iff.2 (groupbySize_keys_nodup _ _)
  -- the keys are sorted by calendar position
  have hsorted : ((update df city).monthlyCounts).Pairwise
      (fun a b : String × Nat => monthIndex a.1 ≤ monthIndex b.1) := by
    haveI : IsTotal (String × Nat) (fun a b : String × Nat => monthIndex a.1 ≤ monthIndex b.1) :=
      ⟨fun a b => Nat.le_total _ _⟩
    haveI : IsTrans (String × Nat) (fun a b : String × Nat => monthIndex a.1 ≤ monthIndex b.1) :=
      ⟨fun _ _ _ => Nat.le_trans⟩
    exact List.sorted_insertionSort _ _
  have hstrict : ((update df city).monthlyCounts.map Prod.fst).Pairwise
      (fun a b => monthIndex a < monthIndex b) := by
    have hmap : ((update df city).monthlyCounts.map Prod.fst).Pairwise
        (fun a b => monthIndex a ≤ monthIndex b) := List.pairwise_map.2 hsorted
    have hand := hmap.and hnd
    refine List.Pairwise.imp_of_mem ?_ hand
    intro a b ha hb h
    have hia := hmem a ha
    have hib := hmem b hb
    have hne : monthIndex a ≠ monthIndex b :=
      fun hh => h.2 ((List.indexOf_inj hia hib).1 hh)
    have hle := h.1
    omega
  -- compare with the filtered calendar
  have hFnd : (month_order.filter
      (fun m => decide (m ∈ (update df city).monthlyCounts.map Prod.fst))).Nodup :=
    month_order_nodup.filter _
  have hFs : (month_order.filter
      (fun m => decide (m ∈ (update df city).monthlyCounts.map Prod.fst))).Pairwise
      (fun a b => monthIndex a < monthIndex b) :=
    month_order_sorted.sublist (List.filter_sublist _)
  have hKF : ((update df city).monthlyCounts.map Prod.fst).Perm
      (month_order.filter
        (fun m => decide (m ∈ (update df city).monthlyCounts.map Prod.fst))) := by
    refine (List.perm_ext_iff_of_nodup hnd hFnd).2 ?_
    intro a
    rw [List.mem_filter, decide_eq_true_eq]
    exact ⟨fun h => ⟨hmem a h, h⟩, fun h => h.2⟩
  haveI : IsAntisymm String (fun a b => monthIndex a < monthIndex b) :=
    ⟨fun a b h1 h2 => absurd h1 (Nat.lt_asymm h2)⟩
  have heq := List.eq_of_perm_of_sorted hKF hstrict hFs
  rw [heq]
  exact List.filter_sublist _

theorem valueCounts_counterSpec (xs : List (Option String)) :
    CounterSpec (xs.filterMap id) (valueCounts xs) := by
  refine ⟨?_, ?_, ?_⟩
  · intro p hp
    exact mem_valueCounts.1 hp
  · intro v hv
    exact ⟨(v, (xs.filterMap id).count v), mem_valueCounts.2 ⟨hv, rfl⟩, rfl⟩
  · have hs := valueCounts_sorted xs
    have hnd2 : (valueCounts xs).Pairwise (fun p q => p.1 ≠ q.1) :=
      List.pairwise_map.1 (valueCounts_keys_nodup xs)
    have hand := hs.and hnd2
    refine List.Pairwise.imp_of_mem ?_ hand
    intro p q hp hq h
    obtain ⟨hrel, hne⟩ := h
    rcases hrel with h1 | ⟨h2, h2i⟩
    · exact Or.inl h1
    · refine Or.inr ⟨h2, ?_⟩
      have hp1 := (mem_valueCounts.1 hp).1
      have hq1 := (mem_valueCounts.1 hq).1
      have hni : (xs.filterMap id).indexOf p.1 ≠ (xs.filterMap id).indexOf q.1 :=
        fun hh => hne ((List.indexOf_inj hp1 hq1).1 hh)
      omega

/-- C4: each of the three categorical breakdowns is a `value_counts`
table: its entries are the distinct non-null values of the field with
their multiplicities, ordered by strictly descending count, ties in the
order the value is first encountered; null field values produce no
entry. -/
theorem categorical_counter_correct (df : List CrimeRecord) (city : String) :
    CounterSpec (((filterCity df city).map (fun r => r.case_closed)).filterMap id)
      (update df city).statusCounts ∧
    CounterSpec (((filterCity df city).map (fun r => r.race_ethnicity)).filterMap id)
      (update df city).raceCounts ∧
    CounterSpec (((filterCity df city).map (fun r => r.gender)).filterMap id)
      (update df city).genderCounts :=
  ⟨valueCounts_counterSpec _, valueCounts_counterSpec _, valueCounts_counterSpec _⟩

theorem categorical_counter_correct_witness :
    ("Yes", 2) ∈ (update sampleDf "All California").statusCounts ∧
    ("Yes", 2).1 ∈ ((filterCity sampleDf "All California").map
      (fun r => r.case_closed)).filterMap id ∧
    ("Yes", 2).2 = (((filterCity sampleDf "All California").map
      (fun r => r.case_closed)).filterMap id).count ("Yes", 2).1 :=
  ⟨by decide,
   ((categorical_counter_correct sampleDf "All California").1.1 ("Yes", 2) (by decide)).1,
   ((categorical_counter_correct sampleDf "All California").1.1 ("Yes", 2) (by decide)).2⟩

theorem hourlyCounts_spec_witness :
    ((8 : Fin 24), 2) ∈ (update sampleDf "Fresno").hourlyCounts ∧
    ((8 : Fin 24), 2).1 ∈ (filterCity sampleDf "Fresno").map (fun r => r.date_time.hour) ∧
    ((8 : Fin 24), 2).2
      = ((filterCity sampleDf "Fresno").map (fun r => r.date_time.hour)).count
          ((8 : Fin 24), 2).1 ∧
    0 < ((8 : Fin 24), 2).2 :=
  ⟨by decide,
   ((hourlyCounts_spec sampleDf "Fresno").1 ((8 : Fin 24), 2) (by decide)).1,
   ((hourlyCounts_spec sampleDf "Fresno").1 ((8 : Fin 24), 2) (by decide)).2.1,
   ((hourlyCounts_spec sampleDf "Fresno").1 ((8 : Fin 24), 2) (by decide)).2.2⟩

theorem weaponUsage_excludes_null_witness :
    ("Gun", 2) ∈ (update sampleDf "All California").weaponUsage ∧
    ("Gun", 2).1 ∈ (filterCity sampleDf "All California").filterMap (fun r => r.weapon) :=
  ⟨by decide,
   (weaponUsage_excludes_null sampleDf "All California").2 ("Gun", 2) (by decide)⟩

theorem foldl_max_of_le {l : List Nat} {n : Nat} (h : ∀ x ∈ l, x ≤ n) :
    l.foldl Nat.max n = n := by
  induction l generalizing n with
  | nil => rfl
  | cons x xs ih =>
    rw [List.foldl_cons]
    have hx : x ≤ n := h x (List.mem_cons_self x xs)
    have hmax : Nat.max n x = n := Nat.max_eq_left hx
    rw [hmax]
    exact ih (fun y hy => h y (List.mem_cons_of_mem x hy))

theorem foldl_best_of_le {ps : List (String × Nat)} {p : String × Nat}
    (h : ∀ q ∈ ps, q.2 ≤ p.2) :
    ps.foldl (fun best q => if best.2 < q.2 then q else best) p = p := by
  induction ps with
  | nil => rfl
  | cons q qs ih =>
    rw [List.foldl_cons]
    have hq : q.2 ≤ p.2 := h q (List.mem_cons_self q qs)
    rw [if_neg (by omega)]
    exact ih (fun y hy => h y (List.mem_cons_of_mem q hy))

theorem idxmax_cons_of_le {p : String × Nat} {ps : List (String × Nat)}
    (h : ∀ q ∈ ps, q.2 ≤ p.2) : idxmax (p :: ps) = p.1 := by
  rw [idxmax, foldl_best_of_le h]

theorem seriesMax_cons_of_le {p : String × Nat} {ps : List (String × Nat)}
    (h : ∀ q ∈ ps, q.2 ≤ p.2) : seriesMax (p :: ps) = p.2 := by
  rw [seriesMax, List.map_cons, List.foldl_cons]
  have hmax : Nat.max 0 p.2 = p.2 := Nat.max_eq_right (Nat.zero_le _)
  rw [hmax]
  refine foldl_max_of_le ?_
  intro x hx
  rw [List.mem_map] at hx
  obtain ⟨q, hq, rfl⟩ := hx
  exact h q hq

theorem crimeVals_ne_nil_iff (dff : List CrimeRecord) :
    crimeVals dff ≠ [] ↔ dff.any (fun r => r.crime_type.isSome) = true := by
  unfold crimeVals
  induction dff with
  | nil => simp
  | cons r rs ih =>
    cases h : r.crime_type <;>
      simp [List.filterMap_cons, List.any_cons, h, ih, Option.isSome_iff_ne_none]

theorem freqCrime_guard (dff : List CrimeRecord) :
    ((!dff.isEmpty) && dff.any (fun r => r.crime_type.isSome))
      = dff.any (fun r => r.crime_type.isSome) := by
  cases dff <;> simp

theorem freqCrime_none_iff (dff : List CrimeRecord) :
    freqCrime dff = none ↔ crimeVals dff = [] := by
  unfold freqCrime
  rw [freqCrime_guard]
  cases hg : dff.any (fun r => r.crime_type.isSome)
  · rw [if_neg Bool.false_ne_true]
    simp only [true_iff]
    by_contra hne
    exact absurd (((crimeVals_ne_nil_iff dff).1 hne).symm.trans hg) (by decide)
  · rw [if_pos rfl]
    simp only [reduceCtorEq, false_iff]
    exact (crimeVals_ne_nil_iff dff).2 hg

theorem freqCrime_spec_some (dff : List CrimeRecord) (lab : String) (cnt : Nat)
    (h : freqCrime dff = some (lab, cnt)) :
    lab ∈ crimeVals dff ∧ cnt = (crimeVals dff).count lab ∧
    (∀ v ∈ crimeVals dff, (crimeVals dff).count v ≤ cnt) ∧
    (∀ v ∈ crimeVals dff, (crimeVals dff).count v = cnt →
      (crimeVals dff).indexOf lab ≤ (crimeVals dff).indexOf v) := by
  unfold freqCrime at h
  rw [freqCrime_guard] at h
  cases hg : dff.any (fun r => r.crime_type.isSome)
  · rw [hg] at h
    simp at h
  · rw [hg, if_pos rfl] at h
    have h2 : (idxmax (valueCounts (dff.map (fun r => r.crime_type))),
        seriesMax (valueCounts (dff.map (fun r => r.crime_type)))) = (lab, cnt) :=
      Option.some_inj.1 h
    obtain ⟨hl, hc⟩ := Prod.ext_iff.1 h2
    -- the frequency table is nonempty
    have hvne : crimeVals dff ≠ [] := (crimeVals_ne_nil_iff dff).2 hg
    obtain ⟨v0, hv0⟩ := List.exists_mem_of_ne_nil _ hvne
    have hv0' : v0 ∈ (dff.map (fun r => r.crime_type)).filterMap id := hv0
    have hvcne : valueCounts (dff.map (fun r => r.crime_type)) ≠ [] := by
      intro hnil
      have hm := (@mem_valueCounts (dff.map (fun r => r.crime_type))
          (v0, ((dff.map (fun r => r.crime_type)).filterMap id).count v0)).2 ⟨hv0', rfl⟩
      rw [hnil] at hm
      exact List.not_mem_nil _ hm
    obtain ⟨p, ps, hcons⟩ := List.exists_cons_of_ne_nil hvcne
    -- the head dominates the tail
    have hsorted := valueCounts_sorted (dff.map (fun r => r.crime_type))
    rw [hcons] at hsorted
    have hrel := (List.pairwise_cons.1 hsorted).1
    have hle : ∀ q ∈ ps, q.2 ≤ p.2 := by
      intro q hq
      rcases hrel q hq with h1 | ⟨h2', _⟩
      · omega
      · omega
    rw [hcons, idxmax_cons_of_le hle] at hl
    rw [hcons, seriesMax_cons_of_le hle] at hc
    subst hl
    subst hc
    have hpmem : p ∈ valueCounts (dff.map (fun r => r.crime_type)) := by
      rw [hcons]
      exact List.mem_cons_self p ps
    obtain ⟨hp1, hp2⟩ := mem_valueCounts.1 hpmem
    refine ⟨hp1, hp2, ?_, ?_⟩
    · intro v hv
      have hq : ((v, (crimeVals dff).count v) : String × Nat)
          ∈ valueCounts (dff.map (fun r => r.crime_type)) :=
        mem_valueCounts.2 ⟨hv, rfl⟩
      rw [hcons] at hq
      rcases List.mem_cons.1 hq with hq1 | hq2
      · have : ((v, (crimeVals dff).count v) : String × Nat).2 = p.2 := by rw [hq1]
        omega
      · exact hle _ hq2
    · intro v hv hcnt
      have hq : ((v, (crimeVals dff).count v) : String × Nat)
          ∈ valueCounts (dff.map (fun r => r.crime_type)) :=
        mem_valueCounts.2 ⟨hv, rfl⟩
      rw [hcons] at hq
      rcases List.mem_cons.1 hq with hq1 | hq2
      · have hv1 : v = p.1 := by
          have := congrArg Prod.fst hq1
          exact this.symm ▸ rfl
        rw [hv1]
      · rcases hrel _ hq2 with h1 | ⟨h2', h3'⟩
        · exfalso
          have : ((v, (crimeVals dff).count v) : String × Nat).2 < p.2 := h1
          omega
        · exact h3'

/-- C8: the "Most Frequent Crime" card shows the sentinel exactly when
the filtered subset has no non-null crime type; otherwise it shows a
most frequent non-null crime type with its count, and among equally
frequent types the one first encountered in the data. -/
theorem topCrimeType_spec (df : List CrimeRecord) (city : String) :
    ((update df city).topCrimeType = none ↔ crimeVals (filterCity df city) = []) ∧
    (∀ lab cnt, (update df city).topCrimeType = some (lab, cnt) →
      lab ∈ crimeVals (filterCity df city) ∧
      cnt = (crimeVals (filterCity df city)).count lab ∧
      (∀ v ∈ crimeVals (filterCity df city),
        (crimeVals (filterCity df city)).count v ≤ cnt) ∧
      (∀ v ∈ crimeVals (filterCity df city),
        (crimeVals (filterCity df city)).count v = cnt →
          (crimeVals (filterCity df city)).indexOf lab ≤
            (crimeVals (filterCity df city)).indexOf v)) :=
  ⟨freqCrime_none_iff _, fun lab cnt h => freqCrime_spec_some _ lab cnt h⟩

theorem topCrimeType_spec_witness :
    "Theft" ∈ crimeVals (filterCity sampleDf "All California") ∧
    2 = (crimeVals (filterCity sampleDf "All California")).count "Theft" :=
  ⟨((topCrimeType_spec sampleDf "All California").2 "Theft" 2 (by decide)).1,
   ((topCrimeType_spec sampleDf "All California").2 "Theft" 2 (by decide)).2.1⟩
